import Mathlib

/-!
Verification of the Kommo webhook relay (`src/server.js` and the unnamed
variants `src/unnamed/part_000` … `part_003`).

The development shallowly embeds the core forwarding logic:

* `crypto.createHash('sha256')` / `crypto.createHmac('sha256', …)` are embedded
  by an executable SHA-256 / HMAC-SHA256 over byte lists (`Nat`s `< 256`),
  with machine words modelled as `Nat` reduced mod `2 ^ 32`;
* `mapEventName`, `verifySignature`, the `user_data` / `custom_data`
  normalization, the GA4 payload construction, the central handler
  (`handleEvent` in `part_000`, and the `/api/webhook/kommo` route of
  `server.js` / `part_001`) and the `/admin/logs` read are translated as pure
  functions; the two outbound `axios.post` calls become oracle results
  (`Except`) supplied as inputs, and the handler output records the payloads
  that were dispatched and the log records that were appended;
* JavaScript truthiness (`if (x)`, `x || d`) is modelled explicitly: the empty
  string and the number `0` are falsy.
-/

namespace KommoWebhook

/-! ## SHA-256 (embedding of node `crypto` `createHash('sha256')`) -/

/-- Reduce to a 32-bit machine word. -/
def w32 (n : Nat) : Nat := n % 4294967296

/-- Right rotation of a 32-bit word. -/
def rotr (n x : Nat) : Nat := w32 ((x >>> n) ||| (x <<< (32 - n)))

/-- SHA-256 `Ch` function. -/
def ch (x y z : Nat) : Nat := (x &&& y) ^^^ ((x ^^^ 4294967295) &&& z)

/-- SHA-256 `Maj` function. -/
def maj (x y z : Nat) : Nat := (x &&& y) ^^^ (x &&& z) ^^^ (y &&& z)

/-- SHA-256 big sigma 0. -/
def bigSigma0 (x : Nat) : Nat := rotr 2 x ^^^ rotr 13 x ^^^ rotr 22 x

/-- SHA-256 big sigma 1. -/
def bigSigma1 (x : Nat) : Nat := rotr 6 x ^^^ rotr 11 x ^^^ rotr 25 x

/-- SHA-256 small sigma 0. -/
def smallSigma0 (x : Nat) : Nat := rotr 7 x ^^^ rotr 18 x ^^^ (x >>> 3)

/-- SHA-256 small sigma 1. -/
def smallSigma1 (x : Nat) : Nat := rotr 17 x ^^^ rotr 19 x ^^^ (x >>> 10)

/-- The 64 SHA-256 round constants (decimal). -/
def kTable : List Nat :=
  [1116352408, 1899447441, 3049323471, 3921009573, 961987163, 1508970993,
   2453635748, 2870763221, 3624381080, 310598401, 607225278, 1426881987,
   1925078388, 2162078206, 2614888103, 3248222580, 3835390401, 4022224774,
   264347078, 604807628, 770255983, 1249150122, 1555081692, 1996064986,
   2554220882, 2821834349, 2952996808, 3210313671, 3336571891, 3584528711,
   113926993, 338241895, 666307205, 773529912, 1294757372, 1396182291,
   1695183700, 1986661051, 2177026350, 2456956037, 2730485921, 2820302411,
   3259730800, 3345764771, 3516065817, 3600352804, 4094571909, 275423344,
   430227734, 506948616, 659060556, 883997877, 958139571, 1322822218,
   1537002063, 1747873779, 1955562222, 2024104815, 2227730452, 2361852424,
   2428436474, 2756734187, 3204031479, 3329325298]

/-- The eight 32-bit words of a SHA-256 hash state. -/
structure Digest where
  h0 : Nat
  h1 : Nat
  h2 : Nat
  h3 : Nat
  h4 : Nat
  h5 : Nat
  h6 : Nat
  h7 : Nat
  deriving Repr, DecidableEq

/-- SHA-256 initial hash value (decimal). -/
def initH : Digest :=
  ⟨1779033703, 3144134277, 1013904242, 2773480762,
   1359893119, 2600822924, 528734635, 1541459225⟩

/-- Big-endian 32-bit words from a byte list (groups of four). -/
def toWords : List Nat → List Nat
  | b0 :: b1 :: b2 :: b3 :: rest =>
      (((b0 * 256 + b1) * 256 + b2) * 256 + b3) :: toWords rest
  | _ => []

/-- Extend the message schedule by one word. -/
def scheduleStep (w : List Nat) : List Nat :=
  w ++ [w32 (smallSigma1 (w.getD (w.length - 2) 0) + w.getD (w.length - 7) 0 +
             smallSigma0 (w.getD (w.length - 15) 0) + w.getD (w.length - 16) 0)]

/-- One SHA-256 compression round over the state, given `(k i, w i)`. -/
def round (st : Digest) (kw : Nat × Nat) : Digest :=
  let t1 := w32 (st.h7 + bigSigma1 st.h4 + ch st.h4 st.h5 st.h6 + kw.1 + kw.2)
  let t2 := w32 (bigSigma0 st.h0 + maj st.h0 st.h1 st.h2)
  ⟨w32 (t1 + t2), st.h0, st.h1, st.h2, w32 (st.h3 + t1), st.h4, st.h5, st.h6⟩

/-- Compress one 64-byte block into the running hash state. -/
def compress (st : Digest) (block : List Nat) : Digest :=
  let w16 := toWords block
  let ws := (List.range 48).foldl (fun w _ => scheduleStep w) w16
  let f := (kTable.zip ws).foldl round st
  ⟨w32 (st.h0 + f.h0), w32 (st.h1 + f.h1), w32 (st.h2 + f.h2), w32 (st.h3 + f.h3),
   w32 (st.h4 + f.h4), w32 (st.h5 + f.h5), w32 (st.h6 + f.h6), w32 (st.h7 + f.h7)⟩

/-- The 8-byte big-endian encoding of the bit length for SHA-256 padding. -/
def lenBytes (n : Nat) : List Nat :=
  [(n >>> 56) % 256, (n >>> 48) % 256, (n >>> 40) % 256, (n >>> 32) % 256,
   (n >>> 24) % 256, (n >>> 16) % 256, (n >>> 8) % 256, n % 256]

/-- SHA-256 padding: `0x80`, zeros to 56 mod 64, then the bit length. -/
def padMessage (msg : List Nat) : List Nat :=
  let padZeros := (120 - (msg.length + 1) % 64) % 64
  msg ++ 128 :: List.replicate padZeros 0 ++ lenBytes (8 * msg.length)

/-- Split a byte list into 64-byte blocks. -/
def chunk64 (l : List Nat) : List (List Nat) :=
  (List.range ((l.length + 63) / 64)).map (fun i => ((l.drop (64 * i)).take 64))

/-- SHA-256 of a byte list, as the final eight-word state. -/
def sha256Digest (msg : List Nat) : Digest :=
  (chunk64 (padMessage msg)).foldl compress initH

/-- Lowercase hex digit, as produced by node `digest('hex')`. -/
def hexDigit (n : Nat) : Char :=
  if n < 10 then Char.ofNat (48 + n) else Char.ofNat (87 + n)

/-- Eight lowercase hex characters of a 32-bit word, big-endian. -/
def wordHexChars (w : Nat) : List Char :=
  [hexDigit ((w >>> 28) % 16), hexDigit ((w >>> 24) % 16),
   hexDigit ((w >>> 20) % 16), hexDigit ((w >>> 16) % 16),
   hexDigit ((w >>> 12) % 16), hexDigit ((w >>> 8) % 16),
   hexDigit ((w >>> 4) % 16), hexDigit (w % 16)]

/-- Hex encoding of a digest: 64 lowercase hex characters. -/
def digestHex (d : Digest) : String :=
  ⟨wordHexChars d.h0 ++ wordHexChars d.h1 ++ wordHexChars d.h2 ++
   wordHexChars d.h3 ++ wordHexChars d.h4 ++ wordHexChars d.h5 ++
   wordHexChars d.h6 ++ wordHexChars d.h7⟩

/-- Big-endian bytes of a 32-bit word. -/
def wordBytes (w : Nat) : List Nat :=
  [(w >>> 24) % 256, (w >>> 16) % 256, (w >>> 8) % 256, w % 256]

/-- The 32 raw digest bytes of a hash state. -/
def digestBytes (d : Digest) : List Nat :=
  wordBytes d.h0 ++ wordBytes d.h1 ++ wordBytes d.h2 ++ wordBytes d.h3 ++
  wordBytes d.h4 ++ wordBytes d.h5 ++ wordBytes d.h6 ++ wordBytes d.h7

/-! ## HMAC-SHA256 (embedding of `crypto.createHmac('sha256', key)`) -/

/-- HMAC key preparation: hash when longer than the 64-byte block, zero-pad. -/
def hmacKey (key : List Nat) : List Nat :=
  let k0 := if key.length > 64 then digestBytes (sha256Digest key) else key
  k0 ++ List.replicate (64 - k0.length) 0

/-- HMAC-SHA256, hex-encoded: `H((K xor opad) ++ H((K xor ipad) ++ msg))`. -/
def hmacSha256Hex (key msg : List Nat) : String :=
  let k := hmacKey key
  let ip := k.map (fun b => b ^^^ 54)
  let op := k.map (fun b => b ^^^ 92)
  digestHex (sha256Digest (op ++ digestBytes (sha256Digest (ip ++ msg))))

/-! ## UTF-8 (node strings are hashed as their UTF-8 bytes) -/

/-- UTF-8 encoding of one character. -/
def utf8EncodeCh (c : Char) : List Nat :=
  let n := c.toNat
  if n < 128 then [n]
  else if n < 2048 then [192 + n / 64, 128 + n % 64]
  else if n < 65536 then [224 + n / 4096, 128 + (n / 64) % 64, 128 + n % 64]
  else [240 + n / 262144, 128 + (n / 4096) % 64, 128 + (n / 64) % 64, 128 + n % 64]

/-- UTF-8 bytes of a string. -/
def utf8Bytes (s : String) : List Nat := (s.data.map utf8EncodeCh).flatten

/-- Hex-encoded SHA-256 of a string, as `createHash('sha256').update(s).digest('hex')`. -/
def sha256HexStr (s : String) : String := digestHex (sha256Digest (utf8Bytes s))

/-! ## Digest length facts -/

/-- A hex-encoded digest always has 64 characters. -/
theorem digestHex_length (d : Digest) : (digestHex d).length = 64 := rfl

/-- A hex-encoded HMAC-SHA256 always has 64 characters. -/
theorem hmacSha256Hex_length (key msg : List Nat) :
    (hmacSha256Hex key msg).length = 64 :=
  digestHex_length _

/-- A hex-encoded SHA-256 of a string always has 64 characters. -/
theorem sha256HexStr_length (s : String) : (sha256HexStr s).length = 64 :=
  digestHex_length _

/-! ## JavaScript truthiness helpers

`if (x)` and `x || d` on strings treat the empty string as falsy, and on
numbers treat `0` as falsy.  The helpers below spell that out for optional
values (`none` embeds `undefined`). -/

/-- Truthiness of an optional string: present and nonempty. -/
def truthyStr : Option String → Bool
  | some s => s ≠ ""
  | none => false

/-- Truthiness of an optional number (`0` is falsy; `NaN` is not modelled). -/
def truthyInt : Option Int → Bool
  | some v => v ≠ 0
  | none => false

/-- `x || d` on an optional string. -/
def jsOrStr (o : Option String) (d : String) : String :=
  match o with
  | some s => if s = "" then d else s
  | none => d

/-- `x || d` on an optional number. -/
def jsOrInt (o : Option Int) (d : Int) : Int :=
  match o with
  | some v => if v = 0 then d else v
  | none => d

/-! ## Event classifier (`mapEventName` in every variant) -/

/-- From the source: `'lead'` maps to `'Lead'`, `'purchase'` to `'Purchase'`,
anything else to `null` (embedded as `none`). -/
def mapEventName (type : String) : Option String :=
  if type = "lead" then some "Lead"
  else if type = "purchase" then some "Purchase"
  else none

/-! ## Signature verifier (`verifySignature` in every variant)

The source computes `createHmac('sha256', KOMMO_SECRET)` over
`JSON.stringify(body)`; the serialized body is taken here as the string
input `bodyJson`. -/

/-- From the source: hex HMAC-SHA256 of the serialized body under the secret,
compared to the supplied signature with exact string equality. -/
def verifySignature (secret bodyJson sig : String) : Bool :=
  hmacSha256Hex (utf8Bytes secret) (utf8Bytes bodyJson) == sig

/-! ## Inbound data model -/

/-- The `contact` object of an inbound event; both fields may be absent. -/
structure Contact where
  email : Option String
  phone : Option String
  deriving Repr, DecidableEq

/-- The `custom_fields` object of an inbound event. -/
structure CustomFields where
  amount : Option Int
  currency : Option String
  client_id : Option String
  deriving Repr, DecidableEq

/-! ## Payload normalizer -/

/-- The `user_data` object sent to Meta: optional `em` / `ph` entries, each a
one-element list. -/
structure UserData where
  em : Option (List String)
  ph : Option (List String)
  deriving Repr, DecidableEq

/-- The `custom_data` object sent to Meta. -/
structure CustomData where
  value : Option Int
  currency : Option String
  deriving Repr, DecidableEq

/-- Keep only ASCII digit characters, as `replace(/\D+/g, ...)` does with the
empty replacement. -/
def stripNonDigits (s : String) : String := ⟨s.data.filter Char.isDigit⟩

/-- `trim()`: drop leading and trailing whitespace (the ASCII whitespace
characters; the additional Unicode space characters JavaScript also trims are
outside the embedding). -/
def jsTrim (s : String) : String :=
  ⟨((s.data.dropWhile Char.isWhitespace).reverse.dropWhile
      Char.isWhitespace).reverse⟩

/-- `toLowerCase()`: lowercase each character (ASCII case mapping; the inputs
the claims exercise are ASCII). -/
def jsToLower (s : String) : String := ⟨s.data.map Char.toLower⟩

/-- Hashed identity attributes, from `server.js` lines 92–101 (same code in
`part_000` lines 72–81 and `part_001` lines 99–108): a truthy email is
trimmed, lowercased and SHA-256 hashed into `em`; a truthy phone is stripped
of non-digits and hashed into `ph`. -/
def buildUserDataFields (email phone : Option String) : UserData :=
  { em := if truthyStr email then
            some [sha256HexStr (jsToLower (jsTrim (email.getD "")))]
          else none,
    ph := if truthyStr phone then
            some [sha256HexStr (stripNonDigits (phone.getD ""))]
          else none }

/-- `user_data` for `server.js` (`contact.email` accessed without optional
chaining, so the contact object itself is required). -/
def buildUserData (c : Contact) : UserData :=
  buildUserDataFields c.email c.phone

/-- `user_data` for `part_000` (`contact?.email`, the contact object itself
may be absent). -/
def buildUserDataOpt (c : Option Contact) : UserData :=
  buildUserDataFields (c.bind (·.email)) (c.bind (·.phone))

/-- The unhashed `user_data` of `part_003` lines 73–75 (also `part_002`):
`user_data.em = [contact.email]`, `user_data.ph = [contact.phone]`, raw. -/
def part003UserData (c : Contact) : UserData :=
  { em := if truthyStr c.email then some [c.email.getD ""] else none,
    ph := if truthyStr c.phone then some [c.phone.getD ""] else none }

/-- `custom_data`, from `server.js` lines 103–108 (same in every variant):
populated only when `custom_fields?.amount` is truthy, with the currency
defaulted to `"USD"`. -/
def buildCustomData (cf : Option CustomFields) : CustomData :=
  match cf with
  | some f =>
      if truthyInt f.amount then
        { value := f.amount, currency := some (jsOrStr f.currency "USD") }
      else { value := none, currency := none }
  | none => { value := none, currency := none }

/-! ## Outbound payloads -/

/-- The event-relevant part of the Meta CAPI request body (`sendToMeta`): the
wall-clock `event_time` and the environment credential are outside the
embedding. -/
structure MetaPayload where
  event_name : String
  user_data : UserData
  custom_data : CustomData
  deriving Repr, DecidableEq

/-- The GA4 Measurement Protocol request body built by `sendToGA4`. -/
structure GA4Payload where
  client_id : String
  name : String
  value : Int
  currency : String
  deriving Repr, DecidableEq

/-- From `sendToGA4` (`part_000` lines 46–59, `part_003` lines 34–56):
`client_id: clientId || '555.555'`, the lowercased event name, and commerce
parameters defaulted through JavaScript `||`. -/
def sendToGA4Payload (eventName : String) (cd : CustomData)
    (clientId : Option String) : GA4Payload :=
  { client_id := jsOrStr clientId "555.555",
    name := jsToLower eventName,
    value := jsOrInt cd.value 0,
    currency := jsOrStr cd.currency "USD" }

/-! ## Dispatch outcomes -/

/-- What an `axios` rejection carries that the handler looks at:
`err.response?.status`. -/
structure AxiosErr where
  respStatus : Option Nat
  deriving Repr, DecidableEq

/-- The result of one outbound `axios.post`, supplied to the handler as an
oracle: a fulfilled response with its `.status`, or a rejection. -/
abbrev CallResult := Except AxiosErr Nat

/-- A per-destination outcome as stored in the log record. -/
inductive DispatchOutcome where
  | status (n : Nat)
  | error
  deriving Repr, DecidableEq

/-- Outcome of a failed call: `err.response?.status || 'error'` (a falsy
status, absent or `0`, becomes the sentinel). -/
def outcomeOfErr (e : AxiosErr) : DispatchOutcome :=
  match e.respStatus with
  | some n => if n = 0 then .error else .status n
  | none => .error

/-- Outcome of a call: the response status on fulfilment, `outcomeOfErr` on
rejection. -/
def outcomeOf : CallResult → DispatchOutcome
  | .ok s => .status s
  | .error e => outcomeOfErr e

/-! ## Log records and responses -/

/-- A log record as pushed onto `db.data.logs`; the timestamp string is the
ambient `new Date().toISOString()` value, passed in as `now`. -/
structure LogRecord where
  timestamp : String
  type : String
  metaStatus : DispatchOutcome
  ga4Status : DispatchOutcome
  deriving Repr, DecidableEq

/-- The four responses the webhook handlers can return. -/
inductive HttpResponse where
  | disabled
  | invalidSignature
  | ignored
  | success
  deriving Repr, DecidableEq

/-- HTTP status code of each response, as in the source. -/
def statusCode : HttpResponse → Nat
  | .disabled => 503
  | .invalidSignature => 403
  | .ignored => 200
  | .success => 200

/-- Everything observable about one handler run: the response, the payload of
each outbound call that was attempted (`none` when the call never happened),
and the log records appended to the store. -/
structure HandlerOutput where
  response : HttpResponse
  metaCall : Option MetaPayload
  ga4Call : Option GA4Payload
  newLogs : List LogRecord
  deriving Repr, DecidableEq

/-! ## Handlers -/

/-- An inbound request to `/api/webhook/kommo`: the serialized JSON body (what
`JSON.stringify(req.body)` yields inside `verifySignature`), the optional
`X-Hub-Signature` header, and the destructured body fields.  `contact` is a
required object in `server.js` / `part_001`, which access `contact.email`
without optional chaining. -/
structure KommoRequest where
  bodyJson : String
  signatureHeader : Option String
  type : Option String
  contact : Contact
  customFields : Option CustomFields
  deriving Repr, DecidableEq

/-- The `/api/webhook/kommo` route of `server.js` lines 76–134 (identically
`part_001` lines 80–146): check the enabled flag, verify the signature
(`req.get('X-Hub-Signature') || ''`), classify, normalize, dispatch to both
destinations, append one log record, answer `{success: true}`.  The two
outbound call results arrive as oracles; `now` is the ambient timestamp. -/
def kommoHandler (secret now : String) (enabled : Bool) (req : KommoRequest)
    (metaResult ga4Result : CallResult) : HandlerOutput :=
  if !enabled then ⟨.disabled, none, none, []⟩
  else if !(verifySignature secret req.bodyJson (req.signatureHeader.getD "")) then
    ⟨.invalidSignature, none, none, []⟩
  else
    match req.type.bind mapEventName with
    | none => ⟨.ignored, none, none, []⟩
    | some eventName =>
        let user_data := buildUserData req.contact
        let custom_data := buildCustomData req.customFields
        ⟨.success,
         some ⟨eventName, user_data, custom_data⟩,
         some (sendToGA4Payload eventName custom_data
                (req.customFields.bind (·.client_id))),
         [⟨now, eventName, outcomeOf metaResult, outcomeOf ga4Result⟩]⟩

/-- The central `handleEvent` of `part_000` lines 62–118, reached from the
`/api/webhook/manual/:evt` route: like `kommoHandler` but with no signature
check, with `type` always a string (a route parameter) and with the contact
object optional (`contact?.email`). -/
def handleEvent (now : String) (enabled : Bool) (type : String)
    (contact : Option Contact) (customFields : Option CustomFields)
    (metaResult ga4Result : CallResult) : HandlerOutput :=
  if !enabled then ⟨.disabled, none, none, []⟩
  else
    match mapEventName type with
    | none => ⟨.ignored, none, none, []⟩
    | some eventName =>
        let user_data := buildUserDataOpt contact
        let custom_data := buildCustomData customFields
        ⟨.success,
         some ⟨eventName, user_data, custom_data⟩,
         some (sendToGA4Payload eventName custom_data
                (customFields.bind (·.client_id))),
         [⟨now, eventName, outcomeOf metaResult, outcomeOf ga4Result⟩]⟩

/-! ## Admin log read -/

/-- The persisted store: `db.data` with its log collection and config flag. -/
structure DbData where
  logs : List LogRecord
  enabled : Bool
  deriving Repr, DecidableEq

/-- `logs.slice(-100)`: the last `n` elements (the whole list when it is
shorter than `n`). -/
def jsSliceLast (n : Nat) (l : List LogRecord) : List LogRecord :=
  l.drop (l.length - n)

/-- The `GET /admin/logs` route of `server.js` lines 138–141 (identically
`part_000` lines 132–135): answer the enabled flag and `logs.slice(-100)`,
leaving the store as it was. -/
def adminLogs (db : DbData) : (Bool × List LogRecord) × DbData :=
  ((db.enabled, jsSliceLast 100 db.logs), db)

/-! ## Helper lemmas -/

/-- The digest is 64 characters long, so comparing it against the empty string
(the substitute for a missing header) always yields `false`. -/
theorem verifySignature_empty (secret bodyJson : String) :
    verifySignature secret bodyJson "" = false := by
  have h64 := hmacSha256Hex_length (utf8Bytes secret) (utf8Bytes bodyJson)
  simp only [verifySignature, beq_eq_false_iff_ne]
  intro h
  rw [h] at h64
  exact absurd h64 (by decide)

/-! ## Claim theorems -/

/-- C3: the signature verifier is a pure function that returns true iff the
hex-encoded HMAC-SHA256 digest of the serialized body under the secret equals
the supplied signature exactly (case-sensitive string equality), and for every
body it returns false when the supplied signature is the empty string that
stands in for a missing header. -/
theorem verifySignature_spec (secret bodyJson sig : String) :
    (verifySignature secret bodyJson sig = true ↔
      hmacSha256Hex (utf8Bytes secret) (utf8Bytes bodyJson) = sig) ∧
    verifySignature secret bodyJson "" = false :=
  ⟨by simp [verifySignature], verifySignature_empty secret bodyJson⟩

/-- C5: the event classifier maps exactly `"lead"` to `Lead` and `"purchase"`
to `Purchase`, and every other string, including the empty string and casing
variants, to `none`; it is a pure function. -/
theorem mapEventName_spec :
    mapEventName "lead" = some "Lead" ∧
    mapEventName "purchase" = some "Purchase" ∧
    mapEventName "" = none ∧
    mapEventName "Lead" = none ∧
    mapEventName "PURCHASE" = none ∧
    ∀ s : String, s ≠ "lead" → s ≠ "purchase" → mapEventName s = none := by
  refine ⟨rfl, rfl, rfl, rfl, rfl, ?_⟩
  intro s h1 h2
  simp [mapEventName, h1, h2]

/-- Witness for C5 at the concrete unmapped string `"Lead "`. -/
theorem mapEventName_spec_witness :
    ("Lead " : String) ≠ "lead" ∧ ("Lead " : String) ≠ "purchase" ∧
    mapEventName "Lead " = none :=
  ⟨by decide, by decide,
   mapEventName_spec.2.2.2.2.2 "Lead " (by decide) (by decide)⟩

/-- C7: with the config disabled, both handlers return the 503 disabled
response, attempt no outbound call to either destination, and append no log
record, whatever the rest of the request and the oracle results are. -/
theorem disabled_short_circuit (secret now t : String) (req : KommoRequest)
    (c : Option Contact) (cf : Option CustomFields) (mR gR : CallResult) :
    kommoHandler secret now false req mR gR =
      ⟨.disabled, none, none, []⟩ ∧
    handleEvent now false t c cf mR gR =
      ⟨.disabled, none, none, []⟩ ∧
    statusCode .disabled = 503 :=
  ⟨rfl, rfl, rfl⟩

/-- C10: the admin log read returns the current enabled flag together with the
`min 100 n` most recent log records as a suffix of the log collection (hence
in insertion order), and leaves the store unchanged. -/
theorem adminLogs_spec (db : DbData) :
    adminLogs db = ((db.enabled, jsSliceLast 100 db.logs), db) ∧
    (jsSliceLast 100 db.logs).length = min 100 db.logs.length ∧
    jsSliceLast 100 db.logs <:+ db.logs := by
  refine ⟨rfl, ?_, ?_⟩
  · rw [jsSliceLast, List.length_drop]
    omega
  · exact ⟨db.logs.take (db.logs.length - 100), db.logs.take_append_drop _⟩

/-- C1: in the `part_003` (and `part_002`) variant the identity attributes
carry the raw contact values: with email `" Foo@Bar.COM "` supplied, `em`
holds the raw string itself, which cannot be any hex-encoded SHA-256 digest
(those have 64 characters); the hashed variant of `server.js` / `part_000`
instead produces the digest of the trimmed, lowercased email. -/
theorem part003_raw_identity :
    part003UserData ⟨some " Foo@Bar.COM ", none⟩ =
      ⟨some [" Foo@Bar.COM "], none⟩ ∧
    buildUserData ⟨some " Foo@Bar.COM ", none⟩ =
      ⟨some [sha256HexStr "foo@bar.com"], none⟩ ∧
    ∀ s : String, ((" Foo@Bar.COM " : String) == sha256HexStr s) = false := by
  refine ⟨rfl, rfl, ?_⟩
  intro s
  rw [beq_eq_false_iff_ne]
  intro h
  have h64 := sha256HexStr_length s
  rw [← h] at h64
  exact absurd h64 (by decide)

/-- C2 counterexample: a failed Meta call whose rejection carries HTTP status
500 is logged as the numeric outcome `500`, not as the `"error"` sentinel the
claim requires for every failing destination (the GA4 success is logged as
`204` and the inbound response is still the success acknowledgment). -/
theorem dispatch_error_status_cex :
    (handleEvent "t0" true "lead" none none (.error ⟨some 500⟩) (.ok 204)).response
      = .success ∧
    (handleEvent "t0" true "lead" none none (.error ⟨some 500⟩) (.ok 204)).newLogs
      = [⟨"t0", "Lead", .status 500, .status 204⟩] ∧
    decide (DispatchOutcome.status 500 = DispatchOutcome.error) = false := by
  decide

/-- C2 as amended: when one destination's call rejects and the other fulfils,
in either direction, the other call is still attempted, the inbound response
is the success acknowledgment, and the single log record captures the numeric
status of the fulfilled call and, for the rejected one, the `"error"` sentinel
when the rejection carried no usable HTTP status, or that numeric status when
it did. -/
theorem dispatch_isolation (now t ev : String) (c : Option Contact)
    (cf : Option CustomFields) (e : AxiosErr) (s : Nat)
    (h : mapEventName t = some ev) :
    ((handleEvent now true t c cf (.error e) (.ok s)).response = .success ∧
     (handleEvent now true t c cf (.error e) (.ok s)).metaCall.isSome = true ∧
     (handleEvent now true t c cf (.error e) (.ok s)).ga4Call.isSome = true ∧
     (handleEvent now true t c cf (.error e) (.ok s)).newLogs
        = [⟨now, ev, outcomeOfErr e, .status s⟩]) ∧
    ((handleEvent now true t c cf (.ok s) (.error e)).response = .success ∧
     (handleEvent now true t c cf (.ok s) (.error e)).metaCall.isSome = true ∧
     (handleEvent now true t c cf (.ok s) (.error e)).ga4Call.isSome = true ∧
     (handleEvent now true t c cf (.ok s) (.error e)).newLogs
        = [⟨now, ev, .status s, outcomeOfErr e⟩]) := by
  simp [handleEvent, h, outcomeOf]

/-- Witness for C2 as amended, at a lead event with a status-less rejection on
one side and a 204 fulfilment on the other. -/
theorem dispatch_isolation_witness :
    mapEventName "lead" = some "Lead" ∧
    (((handleEvent "t0" true "lead" none none (.error ⟨none⟩) (.ok 204)).response
        = .success ∧
      (handleEvent "t0" true "lead" none none (.error ⟨none⟩) (.ok 204)).metaCall.isSome
        = true ∧
      (handleEvent "t0" true "lead" none none (.error ⟨none⟩) (.ok 204)).ga4Call.isSome
        = true ∧
      (handleEvent "t0" true "lead" none none (.error ⟨none⟩) (.ok 204)).newLogs
        = [⟨"t0", "Lead", outcomeOfErr ⟨none⟩, .status 204⟩]) ∧
     ((handleEvent "t0" true "lead" none none (.ok 204) (.error ⟨none⟩)).response
        = .success ∧
      (handleEvent "t0" true "lead" none none (.ok 204) (.error ⟨none⟩)).metaCall.isSome
        = true ∧
      (handleEvent "t0" true "lead" none none (.ok 204) (.error ⟨none⟩)).ga4Call.isSome
        = true ∧
      (handleEvent "t0" true "lead" none none (.ok 204) (.error ⟨none⟩)).newLogs
        = [⟨"t0", "Lead", .status 204, outcomeOfErr ⟨none⟩⟩])) :=
  ⟨rfl, dispatch_isolation "t0" "lead" "Lead" none none ⟨none⟩ 204 rfl⟩

/-- C4: the kommo route appends a log record iff the enabled check, the
signature check and the classification all pass; in that case it appends
exactly one record, holding the canonical event name and the outcome of each
of the two dispatch attempts (hence written only after both completed),
whatever those outcomes are; unmapped, disabled and rejected requests append
nothing. -/
theorem log_append_iff (secret now : String) (enabled : Bool)
    (req : KommoRequest) (mR gR : CallResult) :
    ((kommoHandler secret now enabled req mR gR).newLogs =
      if enabled = true ∧
         verifySignature secret req.bodyJson (req.signatureHeader.getD "") = true ∧
         (req.type.bind mapEventName).isSome = true
      then match req.type.bind mapEventName with
           | some ev => [⟨now, ev, outcomeOf mR, outcomeOf gR⟩]
           | none => []
      else []) ∧
    ((kommoHandler secret now enabled req mR gR).newLogs.length = 1 ↔
      (enabled = true ∧
       verifySignature secret req.bodyJson (req.signatureHeader.getD "") = true ∧
       (req.type.bind mapEventName).isSome = true)) := by
  cases enabled <;>
    cases hv : verifySignature secret req.bodyJson (req.signatureHeader.getD "") <;>
      cases hm : req.type.bind mapEventName <;>
        simp [kommoHandler, hv, hm]

/-- C6 counterexample: a supplied amount of `0` is falsy in the source
(`if (custom_fields?.amount)`), so the commerce attributes come out empty, not
`{value: 0, currency: "USD"}` as the claim requires. -/
theorem amount_zero_cex :
    buildCustomData (some ⟨some 0, none, none⟩) = ⟨none, none⟩ ∧
    decide (buildCustomData (some ⟨some 0, none, none⟩) =
            (⟨some 0, some "USD"⟩ : CustomData)) = false := by
  decide

/-- C6 as amended: when a nonzero amount is supplied the commerce attributes
are `{value: amount, currency: supplied currency or "USD" when absent}`, and
when the amount is absent or `0` (falsy) they are empty. -/
theorem commerce_normalization (v : Int) (cur cid : Option String)
    (hv : v ≠ 0) (hcur : cur ≠ some "") :
    buildCustomData (some ⟨some v, cur, cid⟩) =
      ⟨some v, some (cur.getD "USD")⟩ ∧
    buildCustomData (some ⟨none, cur, cid⟩) = ⟨none, none⟩ ∧
    buildCustomData (some ⟨some 0, cur, cid⟩) = ⟨none, none⟩ ∧
    buildCustomData none = ⟨none, none⟩ := by
  refine ⟨?_, by simp [buildCustomData, truthyInt], by simp [buildCustomData, truthyInt], rfl⟩
  cases cur with
  | none => simp [buildCustomData, truthyInt, hv, jsOrStr]
  | some cu =>
      have hcu : cu ≠ "" := fun hc => hcur (by rw [hc])
      simp [buildCustomData, truthyInt, hv, jsOrStr, hcu]

/-- Witness for C6 as amended, at amount 50 and currency `"EUR"`. -/
theorem commerce_normalization_witness :
    (50 : Int) ≠ 0 ∧ (some "EUR" : Option String) ≠ some "" ∧
    (buildCustomData (some ⟨some 50, some "EUR", none⟩) =
        ⟨some 50, some ((some "EUR").getD "USD")⟩ ∧
     buildCustomData (some ⟨none, some "EUR", none⟩) = ⟨none, none⟩ ∧
     buildCustomData (some ⟨some 0, some "EUR", none⟩) = ⟨none, none⟩ ∧
     buildCustomData none = ⟨none, none⟩) :=
  ⟨by decide, by decide,
   commerce_normalization 50 (some "EUR") none (by decide) (by decide)⟩

/-- C8 counterexample: the disabled check runs before the signature check, so
a request with a missing (hence mismatching) signature posted while the
config is disabled gets the 503 disabled response, not the 403 rejection the
claim requires regardless of the enabled flag. -/
theorem signature_disabled_cex :
    verifySignature "secret0" "body0" "" = false ∧
    (kommoHandler "secret0" "t0" false
        ⟨"body0", none, some "lead", ⟨none, none⟩, none⟩
        (.ok 200) (.ok 204)).response = .disabled ∧
    decide (HttpResponse.disabled = HttpResponse.invalidSignature) = false :=
  ⟨verifySignature_empty "secret0" "body0", rfl, rfl⟩

/-- C8 as amended: once the enabled short-circuit has not fired, a request
whose supplied signature (the empty string when the header is missing) does
not match the computed digest is rejected with the 403 response and nothing
else happens: no dispatch call to either destination and no log record,
whatever the other request fields and oracle results are. -/
theorem signature_reject (secret now : String) (req : KommoRequest)
    (mR gR : CallResult)
    (h : verifySignature secret req.bodyJson (req.signatureHeader.getD "") = false) :
    kommoHandler secret now true req mR gR =
      ⟨.invalidSignature, none, none, []⟩ ∧
    statusCode .invalidSignature = 403 := by
  refine ⟨?_, rfl⟩
  simp [kommoHandler, h]

/-- Witness for C8 as amended, at a request with a missing signature header. -/
theorem signature_reject_witness :
    verifySignature "secret0" "body1" ((none : Option String).getD "") = false ∧
    (kommoHandler "secret0" "t1" true
        ⟨"body1", none, some "lead", ⟨none, none⟩, none⟩
        (.ok 200) (.ok 204) = ⟨.invalidSignature, none, none, []⟩ ∧
     statusCode .invalidSignature = 403) :=
  ⟨verifySignature_empty "secret0" "body1",
   signature_reject "secret0" "t1"
     ⟨"body1", none, some "lead", ⟨none, none⟩, none⟩
     (.ok 200) (.ok 204) (verifySignature_empty "secret0" "body1")⟩

/-- C9 counterexample: a supplied but empty client identifier is falsy, so the
measurement payload carries the fixed placeholder `"555.555"` instead of the
supplied value the claim requires whenever an identifier is supplied. -/
theorem client_id_empty_cex :
    sendToGA4Payload "Lead" ⟨none, none⟩ (some "") =
      ⟨"555.555", "lead", 0, "USD"⟩ ∧
    decide (("555.555" : String) = "") = false := by
  decide

/-- C9 as amended: the measurement payload uses the supplied client identifier
when it is nonempty and the placeholder `"555.555"` when it is absent or
empty, the lowercased canonical event name, the commerce value (or `0` when
the commerce attributes are empty) and the commerce currency (or `"USD"`). -/
theorem ga4_payload_spec (ev c cur : String) (v : Int) (cid : Option String)
    (hc : c ≠ "") (hv : v ≠ 0) (hcur : cur ≠ "") :
    sendToGA4Payload ev ⟨some v, some cur⟩ (some c) =
      ⟨c, jsToLower ev, v, cur⟩ ∧
    sendToGA4Payload ev ⟨none, none⟩ none =
      ⟨"555.555", jsToLower ev, 0, "USD"⟩ ∧
    sendToGA4Payload ev ⟨none, none⟩ (some "") =
      ⟨"555.555", jsToLower ev, 0, "USD"⟩ ∧
    (sendToGA4Payload ev ⟨some v, some cur⟩ cid).name = jsToLower ev ∧
    jsToLower "Lead" = "lead" ∧ jsToLower "Purchase" = "purchase" := by
  refine ⟨?_, rfl, rfl, rfl, by decide, by decide⟩
  simp [sendToGA4Payload, jsOrStr, jsOrInt, hc, hv, hcur]

/-- Witness for C9 as amended, at a purchase with client id `"cid9"`, value
50 and currency `"EUR"`. -/
theorem ga4_payload_spec_witness :
    ("cid9" : String) ≠ "" ∧ (50 : Int) ≠ 0 ∧ ("EUR" : String) ≠ "" ∧
    (sendToGA4Payload "Purchase" ⟨some 50, some "EUR"⟩ (some "cid9") =
        ⟨"cid9", jsToLower "Purchase", 50, "EUR"⟩ ∧
     sendToGA4Payload "Purchase" ⟨none, none⟩ none =
        ⟨"555.555", jsToLower "Purchase", 0, "USD"⟩ ∧
     sendToGA4Payload "Purchase" ⟨none, none⟩ (some "") =
        ⟨"555.555", jsToLower "Purchase", 0, "USD"⟩ ∧
     (sendToGA4Payload "Purchase" ⟨some 50, some "EUR"⟩ none).name
        = jsToLower "Purchase" ∧
     jsToLower "Lead" = "lead" ∧ jsToLower "Purchase" = "purchase") :=
  ⟨by decide, by decide, by decide,
   ga4_payload_spec "Purchase" "cid9" "EUR" 50 none
     (by decide) (by decide) (by decide)⟩

end KommoWebhook
